import Mathlib

/-!
Verification of `addons/mail/models/discuss/mail_guest.py` (Odoo 17, mail guest
identity module): a shallow embedding of the guest data model, the
`add_guest_to_context` decorator (guest auth resolution), `_update_name`,
`_compute_im_status` and `_init_messaging`, together with theorems checking the
natural-language specification against the code.

Conventions of the embedding:
- ORM records become Lean structures; the database is a `List Guest`.
- A "recordset of at most one guest" (the only shape this module manipulates)
  is an `Option Nat` holding the guest id; `none` is the empty recordset
  (the anonymous identity).
- Python exceptions become `Except`: `UserError` carries its message string,
  the `ValueError` raised by `int()` is a distinct error value.
- Python string truthiness: `None` and `""` are falsy; optional strings are
  `Option String` and an absent-or-empty value is falsy.
-/

namespace MailGuest

/-- Python `str.strip()` with no argument: removes leading and trailing
whitespace (ASCII whitespace modelled via `Char.isWhitespace`; Python also
strips some further Unicode space characters, which no claim depends on). -/
def pyStrip (s : String) : String :=
  ⟨(((s.data.dropWhile Char.isWhitespace).reverse.dropWhile Char.isWhitespace).reverse)⟩

/-- Python `s.split(sep)` for a single-character separator `sep`: splits on
every occurrence, keeping empty parts (`"".split(sep) == [""]`). -/
def splitOnChar (sep : Char) : List Char → List (List Char)
  | [] => [[]]
  | c :: rest =>
    let r := splitOnChar sep rest
    if c = sep then [] :: r
    else
      match r with
      | [] => [[c]]
      | h :: t => (c :: h) :: t

/-- `s.split(sep)` at the string level. -/
def pySplit (sep : Char) (s : String) : List String :=
  (splitOnChar sep s.data).map String.mk

/-- A `mail.guest` record.  `access_token` is a required Char field storing the
access secret (`""` models a falsy/NULL value); `timezone` is an optional
selection; `channel_ids` is the many-to-many channel membership
(`discuss_channel_member`). -/
structure Guest where
  id : Nat
  name : String
  access_token : String
  timezone : Option String
  channel_ids : List Nat
  deriving DecidableEq, Repr

/-- The `{'id': ..., 'name': ...}` payload built by `_update_name`. -/
structure GuestData where
  id : Nat
  name : String
  deriving DecidableEq, Repr

/-- A bus notification target: a `discuss.channel` record or the guest's own
record (its private channel). -/
inductive NotifTarget where
  | channel (id : Nat)
  | guest (id : Nat)
  deriving DecidableEq, Repr

/-- One bus notification as assembled by `_update_name` and handed to
`bus.bus._sendmany`: (target, event kind, payload). -/
structure Notif where
  target : NotifTarget
  event : String
  payload : GuestData
  deriving DecidableEq, Repr

/-- `_update_name(self, name)`: strips the name, raises `UserError` when the
stripped name is empty or longer than 512 characters, otherwise writes the
stripped name and returns the bus notifications sent: one per channel the
guest belongs to, plus one addressed to the guest record itself, each carrying
`{'Guest': {'id': ..., 'name': ...}}` with the new name.  A raise aborts the
method before any write, hence the `Except`. -/
def updateName (g : Guest) (nm : String) : Except String (Guest × List Notif) :=
  let name := pyStrip nm
  if name.length < 1 then
    .error "Guest's name cannot be empty."
  else if name.length > 512 then
    .error "Guest's name is too long."
  else
    let g' : Guest := { g with name := name }
    let guest_data : GuestData := { id := g'.id, name := g'.name }
    let bus_notifs : List Notif :=
      (g'.channel_ids.map fun c =>
        { target := .channel c, event := "mail.record/insert", payload := guest_data })
      ++ [{ target := .guest g'.id, event := "mail.record/insert", payload := guest_data }]
    .ok (g', bus_notifs)

/-- Big-step view of `_update_name` at the database level: the observable
outcome of calling the method on the guest with id `gid`.  A raised error
(including the `ensure_one` precondition failure when the guest does not
exist) leaves the database untouched and sends no notification; success
persists the returned record. -/
def updateNameDb (db : List Guest) (gid : Nat) (nm : String) :
    List Guest × List Notif × Option String :=
  match db.find? (fun g => g.id = gid) with
  | none => (db, [], some "ensure_one failed")
  | some g =>
    match updateName g nm with
    | .error e => (db, [], some e)
    | .ok (g', ns) => (db.map (fun h => if h.id = gid then g' else h), ns, none)

/-- A `bus_presence` row for a guest: `last_poll` and `last_presence` UTC
timestamps, modelled as integer seconds. -/
structure Presence where
  lastPoll : Int
  lastPresence : Int
  deriving DecidableEq, Repr

/-- The SQL `CASE` of `_compute_im_status` for one `bus_presence` row:
offline when `now - last_poll` exceeds the disconnection timer, else away when
`now - last_presence` exceeds the away timer, else online (`age(now, t) >
interval s seconds` is `now - t > s`). -/
def presenceStatus (now disconnectionTimer awayTimer : Int) (p : Presence) : String :=
  if now - p.lastPoll > disconnectionTimer then "offline"
  else if now - p.lastPresence > awayTimer then "away"
  else "online"

/-- `_compute_im_status` for one guest id: the status of its `bus_presence`
row when one exists, and the `res.get(guest.id, 'offline')` default when the
guest has no presence row. -/
def computeImStatus (presOf : Nat → Option Presence)
    (now disconnectionTimer awayTimer : Int) (gid : Nat) : String :=
  match presOf gid with
  | none => "offline"
  | some p => presenceStatus now disconnectionTimer awayTimer p

/-- A Python value as it appears in the `_init_messaging` dict. -/
inductive Val where
  | vBool (b : Bool)
  | vNat (n : Nat)
  | vStr (s : String)
  | vList (l : List Val)
  | vObj (l : List (String × Val))
  deriving Repr

/-- Python truthiness of a `Val`: `False`, `0`, `""` and empty containers are
falsy. -/
def Val.falsy : Val → Bool
  | .vBool b => !b
  | .vNat n => n == 0
  | .vStr s => s == ""
  | .vList l => l.isEmpty
  | .vObj l => l.isEmpty

/-- The external collaborators `_init_messaging` reads from: channel info
(delegated to `discuss.channel._channel_info`), the company name, the
`discuss.tenor_api_key` config parameter, the link-preview feature flag, the
last bus id and the `base.partner_root` (odoobot) record. -/
structure InitEnv where
  channelsInfo : List Val
  companyName : String
  tenorApiKey : Option String
  linkPreviewEnabled : Bool
  busLastId : Nat
  odoobotId : Nat
  odoobotName : String

/-- `_init_messaging(self)`: the returned dict, as an ordered key/value list.
`bool(get_param(...))` on an absent or empty config parameter is `False`. -/
def initMessaging (g : Guest) (env : InitEnv) : List (String × Val) :=
  [ ("channels", .vList env.channelsInfo),
    ("companyName", .vStr env.companyName),
    ("currentGuest", .vObj [("id", .vNat g.id), ("name", .vStr g.name)]),
    ("current_partner", .vBool false),
    ("current_user_id", .vBool false),
    ("current_user_settings", .vBool false),
    ("hasGifPickerFeature", .vBool (env.tenorApiKey.getD "" != "")),
    ("hasLinkPreviewFeature", .vBool env.linkPreviewEnabled),
    ("initBusId", .vNat env.busLastId),
    ("menu_id", .vBool false),
    ("needaction_inbox_counter", .vBool false),
    ("odoobot", .vObj [("id", .vNat env.odoobotId), ("name", .vStr env.odoobotName)]),
    ("shortcodes", .vList []),
    ("starred_counter", .vBool false) ]

/-- Modelled from the spec: `consteq` from `odoo.tools` (backed by
`hmac.compare_digest`), whose implementation is outside this repository.  The
spec requires a constant-time comparison.  The model returns the comparison
result together with its cost: the number of character comparison steps, which
the spec requires to be independent of where the inputs first differ.  The
stored secret (first argument) is always scanned in full; when the lengths
match, the verdict is the accumulated conjunction of all positionwise
character comparisons. -/
def consteq (a b : String) : Bool × Nat :=
  if a.length = b.length then
    ((a.data.zip b.data).foldl (fun acc p => acc && (p.1 == p.2)) true, a.length)
  else
    (false, a.length)

/-- A Python exception escaping the decorator: the `ValueError` raised by
`int(guest_id)` on a non-numeric string. -/
inductive PyErr where
  | valueError
  deriving DecidableEq, Repr

/-- Python `int(s)` on a string: strips surrounding whitespace, accepts an
optional sign followed by a non-empty run of decimal digits, raises
`ValueError` (here: `none`) otherwise.  (Digit-group underscores, accepted by
CPython, are not modelled; no claim depends on them.) -/
def pyInt (s : String) : Option Int :=
  let t := (pyStrip s).data
  let (sign, digits) :=
    match t with
    | '-' :: rest => ((-1 : Int), rest)
    | '+' :: rest => ((1 : Int), rest)
    | _ => ((1 : Int), t)
  if digits.length > 0 && digits.all Char.isDigit then
    some (sign * (digits.foldl (fun n c => n * 10 + (c.toNat - Char.toNat '0')) 0 : Nat))
  else
    none

/-- The request-scoped state the decorator reads and writes: the `guest` entry
of the ambient context (`none` = absent or not a `mail.guest` recordset,
`some gs` = a typed recordset, itself possibly empty), the `dgid` and `tz`
cookies, the `guest_token` context entry, the set of valid IANA timezone names
(`pytz.all_timezones`, external data), the guest table, and a counter of
database lookups (`browse(...).exists()` queries) performed so far in the
request. -/
structure RequestState where
  ctxGuest : Option (Option Nat)
  cookieDgid : Option String
  cookieTz : Option String
  ctxGuestToken : Option String
  tzNames : List String
  db : List Guest
  lookups : Nat
  deriving DecidableEq, Repr

/-- `_get_guest_from_context(self)`: the `guest` context entry when it is a
typed `mail.guest` recordset, the empty recordset otherwise. -/
def getGuestFromContext (st : RequestState) : Option Nat :=
  st.ctxGuest.getD none

/-- Python `a or b` for an optional string `a`: `b` when `a` is `None` or
empty. -/
def strOr (a : Option String) (b : String) : String :=
  match a with
  | some s => if s = "" then b else s
  | none => b

/-- The candidate raw token of the decorator:
`guest_token or req.httprequest.cookies.get(_cookie_name) or
req.env.context.get("guest_token", "")`. -/
def candidateToken (guest_token : Option String) (st : RequestState) : String :=
  strOr guest_token (strOr st.cookieDgid (st.ctxGuestToken.getD ""))

/-- `_get_timezone_from_request(self, request)`: the `tz` cookie when its
value is a recognized timezone name, falsy otherwise. -/
def getTimezoneFromRequest (st : RequestState) : Option String :=
  match st.cookieTz with
  | some tz => if tz ∈ st.tzNames then some tz else none
  | none => none

/-- `browse(int(guest_id)).sudo().exists()`: the privileged lookup of the
guest by id, one database query. -/
def findGuest (db : List Guest) (i : Int) : Option Guest :=
  db.find? (fun g => (g.id : Int) = i)

/-- `_update_timezone(self, timezone)`: sets the guest's timezone (the SQL
`FOR NO KEY UPDATE SKIP LOCKED` write; lock contention is not modelled, this
is the uncontended outcome). -/
def updateTimezone (db : List Guest) (gid : Nat) (tz : String) : List Guest :=
  db.map (fun g => if g.id = gid then { g with timezone := some tz } else g)

/-- Python string truthiness for the guest's `timezone` field. -/
def tzFalsy (t : Option String) : Bool :=
  t.getD "" == ""

/-- The body of the decorator past the short-circuit: splits the candidate
token on `_cookie_separator` (`'|'`); on exactly two parts, parses the id
with `int` (which may raise), performs the privileged lookup, and keeps the
guest only when it exists, has a non-falsy `access_token`, and `consteq`
accepts the presented secret — otherwise the guest degrades to the empty
recordset; a kept guest with a falsy timezone gets a best-effort timezone
update from the `tz` cookie.  Finally the (possibly empty) guest is written
to the request context.  Returns the guest visible to the wrapped function
and the updated state. -/
def resolveToken (token : String) (st : RequestState) :
    Except PyErr (Option Nat × RequestState) :=
  let parts := pySplit '|' token
  if parts.length = 2 then
    let guest_id := parts.headD ""
    let guest_access_token := (parts.drop 1).headD ""
    match pyInt guest_id with
    | none => .error .valueError
    | some i =>
      let st₁ : RequestState := { st with lookups := st.lookups + 1 }
      match findGuest st₁.db i with
      | none => .ok (none, { st₁ with ctxGuest := some none })
      | some g =>
        if g.access_token = "" || !(consteq g.access_token guest_access_token).1 then
          .ok (none, { st₁ with ctxGuest := some none })
        else if tzFalsy g.timezone then
          match getTimezoneFromRequest st₁ with
          | some tz =>
            .ok (some g.id,
              { st₁ with db := updateTimezone st₁.db g.id tz, ctxGuest := some (some g.id) })
          | none => .ok (some g.id, { st₁ with ctxGuest := some (some g.id) })
        else
          .ok (some g.id, { st₁ with ctxGuest := some (some g.id) })
  else
    .ok (none, { st with ctxGuest := some none })

/-- Keyword arguments of the decorated call; a value is a string or `None`. -/
abbrev Kwargs := List (String × Option String)

/-- `wrapper(self, *args, **kwargs)` of `add_guest_to_context`: pops
`guest_token` from the kwargs, short-circuits on a truthy context guest, and
otherwise resolves the candidate token.  The `.ok` value is what the wrapped
function observes — its positional arguments, its keyword arguments, and the
guest available in the context — together with the post-state. -/
def addGuestToContext (args : List String) (kw : Kwargs) (st : RequestState) :
    Except PyErr ((List String × Kwargs × Option Nat) × RequestState) :=
  let guest_token : Option String := (List.lookup "guest_token" kw).getD none
  let kw' : Kwargs := kw.filter (fun p => p.1 ≠ "guest_token")
  match getGuestFromContext st with
  | some g => .ok ((args, kw', some g), st)
  | none =>
    (resolveToken (candidateToken guest_token st) st).map
      (fun r => ((args, kw', r.1), r.2))

/-- Two nested decorated calls in the same request: the second call runs on
the state the first one left behind; yields the guest the inner call observes
and the final state. -/
def runTwice (st : RequestState) : Except PyErr (Option Nat × RequestState) :=
  (addGuestToContext [] [] st).bind fun r =>
    (addGuestToContext [] [] r.2).map fun r₂ => (r₂.1.2.2, r₂.2)

/-! ## Helper lemmas about `updateName` -/

theorem updateName_error_empty (g : Guest) (nm : String) (h : (pyStrip nm).length = 0) :
    updateName g nm = .error "Guest's name cannot be empty." := by
  simp [updateName, h]

theorem updateName_error_long (g : Guest) (nm : String) (h : (pyStrip nm).length > 512) :
    updateName g nm = .error "Guest's name is too long." := by
  have h1 : ¬ (pyStrip nm).length < 1 := by omega
  simp [updateName, h1, h]

theorem updateName_ok (g : Guest) (nm : String)
    (h1 : 1 ≤ (pyStrip nm).length) (h2 : (pyStrip nm).length ≤ 512) :
    updateName g nm = .ok ({ g with name := (pyStrip nm) },
      (g.channel_ids.map fun c =>
        { target := .channel c, event := "mail.record/insert",
          payload := { id := g.id, name := (pyStrip nm) } })
      ++ [{ target := .guest g.id, event := "mail.record/insert",
            payload := { id := g.id, name := (pyStrip nm) } }]) := by
  have h1' : ¬ (pyStrip nm).length < 1 := by omega
  have h2' : ¬ (pyStrip nm).length > 512 := by omega
  simp [updateName, h1', h2']

/-- A sample guest used by concrete witnesses. -/
def gA : Guest :=
  { id := 7, name := "Old", access_token := "secret-a", timezone := none,
    channel_ids := [3, 4] }

/-! ## C4 -/

/-- C4: `_update_name` first trims the input; it fails with a validation
error exactly when the trimmed length is 0 (empty-name error) or exceeds 512
(too-long error), and otherwise persists exactly the trimmed name — over-long
names are rejected, never truncated. -/
theorem updateName_trims_and_validates (g : Guest) (s : String) :
    ((pyStrip s).length = 0 → updateName g s = .error "Guest's name cannot be empty.") ∧
    ((pyStrip s).length > 512 → updateName g s = .error "Guest's name is too long.") ∧
    (1 ≤ (pyStrip s).length → (pyStrip s).length ≤ 512 →
      ∃ ns, updateName g s = .ok ({ g with name := (pyStrip s) }, ns)) :=
  ⟨updateName_error_empty g s, updateName_error_long g s,
   fun h1 h2 => ⟨_, updateName_ok g s h1 h2⟩⟩

/-- Witness for C4: `"  Bob  "` satisfies the length bounds and persists as
`"Bob"`. -/
theorem updateName_trims_and_validates_witness :
    1 ≤ (pyStrip "  Bob  ").length ∧ (pyStrip "  Bob  ").length ≤ 512 ∧
    ∃ ns, updateName gA "  Bob  " = .ok ({ gA with name := (pyStrip "  Bob  ") }, ns) :=
  ⟨by decide, by decide,
   (updateName_trims_and_validates gA "  Bob  ").2.2 (by decide) (by decide)⟩

/-! ## C5 -/

/-- C5: when `_update_name` fails with a validation error (empty or over-long
trimmed name), the guest table is left unchanged and no bus notification is
emitted: the error path performs no partial mutation. -/
theorem updateNameDb_error_no_mutation (db : List Guest) (gid : Nat) (nm : String)
    (h : (pyStrip nm).length = 0 ∨ (pyStrip nm).length > 512) :
    ∃ e, updateNameDb db gid nm = (db, [], some e) := by
  cases hf : db.find? (fun g => g.id = gid) with
  | none => exact ⟨_, by unfold updateNameDb; rw [hf]⟩
  | some g =>
    obtain ⟨e, he⟩ : ∃ e, updateName g nm = Except.error e := by
      rcases h with h | h
      · exact ⟨_, updateName_error_empty g nm h⟩
      · exact ⟨_, updateName_error_long g nm h⟩
    exact ⟨e, by unfold updateNameDb; rw [hf]; dsimp only; rw [he]⟩

/-- Witness for C5: updating the sample one-guest table with a blank name
leaves it unchanged and sends nothing. -/
theorem updateNameDb_error_no_mutation_witness :
    (((pyStrip "   ").length = 0 ∨ (pyStrip "   ").length > 512) ∧
      ∃ e, updateNameDb [gA] 7 "   " = ([gA], [], some e)) :=
  ⟨Or.inl (by decide), updateNameDb_error_no_mutation [gA] 7 "   " (Or.inl (by decide))⟩

/-! ## C6 -/

/-- C6: every successful `_update_name` emits exactly one notification per
channel the guest belongs to plus one addressed to the guest's own record,
each carrying exactly the guest's id and the newly persisted (trimmed)
name. -/
theorem updateName_notifications (g : Guest) (s : String)
    (h1 : 1 ≤ (pyStrip s).length) (h2 : (pyStrip s).length ≤ 512) :
    updateName g s = .ok ({ g with name := (pyStrip s) },
      (g.channel_ids.map fun c =>
        { target := .channel c, event := "mail.record/insert",
          payload := { id := g.id, name := (pyStrip s) } })
      ++ [{ target := .guest g.id, event := "mail.record/insert",
            payload := { id := g.id, name := (pyStrip s) } }]) :=
  updateName_ok g s h1 h2

/-- Witness for C6: the sample guest in channels 3 and 4 renamed to `"Bob"`
sends the three expected notifications. -/
theorem updateName_notifications_witness :
    1 ≤ (pyStrip "  Bob  ").length ∧ (pyStrip "  Bob  ").length ≤ 512 ∧
    updateName gA "  Bob  " = .ok ({ gA with name := (pyStrip "  Bob  ") },
      (gA.channel_ids.map fun c =>
        { target := .channel c, event := "mail.record/insert",
          payload := { id := gA.id, name := (pyStrip "  Bob  ") } })
      ++ [{ target := .guest gA.id, event := "mail.record/insert",
            payload := { id := gA.id, name := (pyStrip "  Bob  ") } }]) :=
  ⟨by decide, by decide, updateName_notifications gA "  Bob  " (by decide) (by decide)⟩

/-! ## C7 -/

/-- C7: presence classification is offline whenever `now - lastPoll` exceeds
the disconnection timer — regardless of `lastPresence`, because the SQL
`CASE` tests the disconnection condition first — otherwise away when
`now - lastPresence` exceeds the away timer, otherwise online; a guest
without a `bus_presence` row is offline. -/
theorem computeImStatus_classification (presOf : Nat → Option Presence)
    (now d a : Int) (gid : Nat) :
    (presOf gid = none → computeImStatus presOf now d a gid = "offline") ∧
    (∀ p, presOf gid = some p → now - p.lastPoll > d →
      computeImStatus presOf now d a gid = "offline") ∧
    (∀ p, presOf gid = some p → now - p.lastPoll ≤ d → now - p.lastPresence > a →
      computeImStatus presOf now d a gid = "away") ∧
    (∀ p, presOf gid = some p → now - p.lastPoll ≤ d → now - p.lastPresence ≤ a →
      computeImStatus presOf now d a gid = "online") := by
  refine ⟨fun h => by simp [computeImStatus, h], ?_, ?_, ?_⟩
  · intro p hp h₁
    simp [computeImStatus, hp, presenceStatus, h₁]
  · intro p hp h₁ h₂
    simp [computeImStatus, hp, presenceStatus, not_lt.2 h₁, h₂]
  · intro p hp h₁ h₂
    simp [computeImStatus, hp, presenceStatus, not_lt.2 h₁, not_lt.2 h₂]

/-- Witness for C7, the spec's away example: disconnection 30, away 10,
`now = 100`, `lastPoll = 95`, `lastPresence = 85` classifies as away. -/
theorem computeImStatus_classification_witness :
    (fun _ : Nat => some (⟨95, 85⟩ : Presence)) 1 = some ⟨95, 85⟩ ∧
    (100 : Int) - 95 ≤ 30 ∧ (100 : Int) - 85 > 10 ∧
    computeImStatus (fun _ => some ⟨95, 85⟩) 100 30 10 1 = "away" :=
  ⟨rfl, by decide, by decide,
   (computeImStatus_classification (fun _ => some ⟨95, 85⟩) 100 30 10 1).2.2.1
     ⟨95, 85⟩ rfl (by decide) (by decide)⟩

/-! ## C8 -/

/-- C8: the guest bootstrap payload of `_init_messaging` consists of exactly
the fixed key list, and the authenticated-user-specific entries
`current_partner`, `current_user_id` and `current_user_settings` are bound to
the falsy value `False`. -/
theorem initMessaging_guest_shape (g : Guest) (env : InitEnv) :
    ((initMessaging g env).map Prod.fst =
      ["channels", "companyName", "currentGuest", "current_partner",
       "current_user_id", "current_user_settings", "hasGifPickerFeature",
       "hasLinkPreviewFeature", "initBusId", "menu_id",
       "needaction_inbox_counter", "odoobot", "shortcodes", "starred_counter"]) ∧
    List.lookup "current_partner" (initMessaging g env) = some (.vBool false) ∧
    List.lookup "current_user_id" (initMessaging g env) = some (.vBool false) ∧
    List.lookup "current_user_settings" (initMessaging g env) = some (.vBool false) ∧
    Val.falsy (.vBool false) = true :=
  ⟨rfl, rfl, rfl, rfl, rfl⟩

/-! ## C9 -/

theorem consteq_cost_eq_length (a b : String) : (consteq a b).2 = a.length := by
  unfold consteq
  split <;> rfl

theorem zip_all_beq_iff {as bs : List Char} (h : as.length = bs.length) (acc : Bool) :
    ((as.zip bs).foldl (fun acc p => acc && (p.1 == p.2)) acc) = (acc && (as == bs)) := by
  induction as generalizing bs acc with
  | nil =>
    cases bs with
    | nil => simp
    | cons b bs => simp at h
  | cons a as ih =>
    cases bs with
    | nil => simp at h
    | cons b bs =>
      have h' : as.length = bs.length := by simpa using h
      simp only [List.zip_cons_cons, List.foldl_cons, ih h']
      rw [show ((a :: as : List Char) == (b :: bs)) = ((a == b) && (as == bs)) from rfl,
        Bool.and_assoc]

/-- C9: the secret comparison used by auth resolution (`consteq`) takes a
number of comparison steps that depends only on the stored secret's length,
never on where the two inputs first differ, and it accepts exactly when the
two strings are equal. -/
theorem consteq_constant_time (a b b' : String) :
    (consteq a b).2 = (consteq a b').2 ∧ ((consteq a b).1 = true ↔ a = b) := by
  constructor
  · rw [consteq_cost_eq_length, consteq_cost_eq_length]
  · unfold consteq
    split
    · rename_i hlen
      have hdl : a.data.length = b.data.length := hlen
      simp only [zip_all_beq_iff hdl, Bool.true_and]
      constructor
      · intro hbeq
        have hd : a.data = b.data := (beq_iff_eq (a := a.data) (b := b.data)).1 hbeq
        cases a; cases b
        exact congrArg String.mk hd
      · intro hab
        subst hab
        exact beq_self_eq_true a.data
    · rename_i hlen
      simp only [Bool.false_eq_true, false_iff]
      intro hab
      exact hlen (by rw [hab])

/-! ## C3 -/

/-- C3: with no guest resolved in the context, the candidate raw token is the
explicit `guest_token` argument when truthy, else the `dgid` cookie when
truthy, else the `guest_token` context entry (defaulting to `""`); and the
decorator resolves exactly that candidate. -/
theorem candidateToken_priority (tok : Option String) (st : RequestState)
    (args : List String) (kw : Kwargs) :
    (∀ s, tok = some s → s ≠ "" → candidateToken tok st = s) ∧
    ((tok = none ∨ tok = some "") → ∀ c, st.cookieDgid = some c → c ≠ "" →
      candidateToken tok st = c) ∧
    ((tok = none ∨ tok = some "") → (st.cookieDgid = none ∨ st.cookieDgid = some "") →
      candidateToken tok st = st.ctxGuestToken.getD "") ∧
    (getGuestFromContext st = none →
      addGuestToContext args kw st =
        (resolveToken (candidateToken ((List.lookup "guest_token" kw).getD none) st) st).map
          (fun r => ((args, kw.filter (fun p => p.1 ≠ "guest_token"), r.1), r.2))) := by
  refine ⟨?_, ?_, ?_, ?_⟩
  · rintro s rfl hs
    simp [candidateToken, strOr, hs]
  · rintro (rfl | rfl) c hc hcne <;> simp [candidateToken, strOr, hc, hcne]
  · rintro (rfl | rfl) (hd | hd) <;> simp [candidateToken, strOr, hd]
  · intro h
    unfold addGuestToContext
    rw [h]

/-- Sample request state for the C3 witness: an explicit argument, a cookie
and a context token are all present; the explicit argument wins. -/
def stW : RequestState :=
  { ctxGuest := none, cookieDgid := some "cookie-token", cookieTz := none,
    ctxGuestToken := some "ctx-token", tzNames := [], db := [], lookups := 0 }

/-- Witness for C3: a truthy explicit argument takes priority. -/
theorem candidateToken_priority_witness :
    (some "arg-token" = some "arg-token") ∧ ("arg-token" ≠ "") ∧
    candidateToken (some "arg-token") stW = "arg-token" :=
  ⟨rfl, by decide,
   (candidateToken_priority (some "arg-token") stW [] []).1 "arg-token" rfl (by decide)⟩

/-! ## C10 -/

theorem lookup_filter_ne (k : String) (kw : Kwargs) :
    List.lookup k (kw.filter (fun p => p.1 ≠ k)) = none := by
  induction kw with
  | nil => rfl
  | cons a t ih =>
    obtain ⟨k', v⟩ := a
    by_cases hk : k' = k
    · subst hk
      simpa [List.filter_cons] using ih
    · have hbeq : (k == k') = false := beq_eq_false_iff_ne.2 (Ne.symm hk)
      simp [List.filter_cons, hk, List.lookup, hbeq, ih]
      exact fun a b _ hak hka => hak hka.symm

/-- C10: whenever the wrapped function is invoked (short-circuit path
included), its positional arguments are passed through unchanged and its
keyword arguments are exactly the original ones with `guest_token` popped,
so the wrapped function never observes a `guest_token` keyword. -/
theorem addGuestToContext_pops_guest_token (args : List String) (kw : Kwargs)
    (st : RequestState) (fargs : List String) (fkw : Kwargs) (g : Option Nat)
    (st' : RequestState)
    (h : addGuestToContext args kw st = .ok ((fargs, fkw, g), st')) :
    fargs = args ∧ fkw = kw.filter (fun p => p.1 ≠ "guest_token") ∧
    List.lookup "guest_token" fkw = none := by
  unfold addGuestToContext at h
  rcases hc : getGuestFromContext st with _ | gg
  · rw [hc] at h
    dsimp only at h
    rcases hr : resolveToken
        (candidateToken ((List.lookup "guest_token" kw).getD none) st) st with e | r
    · rw [hr] at h
      simp [Except.map] at h
    · rw [hr] at h
      simp only [Except.map, Except.ok.injEq, Prod.mk.injEq] at h
      obtain ⟨⟨h₁, h₂, h₃⟩, h₄⟩ := h
      refine ⟨h₁.symm, h₂.symm, ?_⟩
      rw [← h₂]
      exact lookup_filter_ne _ _
  · rw [hc] at h
    dsimp only at h
    simp only [Except.ok.injEq, Prod.mk.injEq] at h
    obtain ⟨⟨h₁, h₂, h₃⟩, h₄⟩ := h
    refine ⟨h₁.symm, h₂.symm, ?_⟩
    rw [← h₂]
    exact lookup_filter_ne _ _

/-- Sample request state for the C10 witness: a typed guest (id 5) is already
in the context, exercising the short-circuit path. -/
def stSC : RequestState :=
  { ctxGuest := some (some 5), cookieDgid := none, cookieTz := none,
    ctxGuestToken := none, tzNames := [], db := [], lookups := 0 }

/-- Witness for C10: on the short-circuit path the `guest_token` kwarg is
popped and the `foo` kwarg survives. -/
theorem addGuestToContext_pops_guest_token_witness :
    addGuestToContext ["a"] [("guest_token", some "tok"), ("foo", some "bar")] stSC
      = .ok ((["a"], [("foo", some "bar")], some 5), stSC) ∧
    (["a"] = ["a"] ∧
      ([("foo", some "bar")] : Kwargs) =
        ([("guest_token", some "tok"), ("foo", some "bar")] : Kwargs).filter
          (fun p => p.1 ≠ "guest_token") ∧
      List.lookup "guest_token" ([("foo", some "bar")] : Kwargs) = none) :=
  ⟨rfl, addGuestToContext_pops_guest_token ["a"]
    [("guest_token", some "tok"), ("foo", some "bar")] stSC
    ["a"] [("foo", some "bar")] (some 5) stSC rfl⟩

/-! ## C1 -/

/-- Request state for the C1 counterexample: no guest in the context, no
explicit token, and the `dgid` cookie holds `"|x"` — a malformed token with
an empty id part. -/
def stC1 : RequestState :=
  { ctxGuest := none, cookieDgid := some "|x", cookieTz := none,
    ctxGuestToken := none, tzNames := [], db := [], lookups := 0 }

/-- Counterexample to C1 as stated: `"|x"` is a malformed token from the
claim's own list (it has the right separator count but an empty id part), yet
the resolver does not yield the anonymous identity — `int("")` raises
`ValueError`, which propagates out of the decorator. -/
theorem addGuestToContext_raises_on_empty_id :
    getGuestFromContext stC1 = none ∧
    candidateToken none stC1 = "|x" ∧
    (pySplit '|' "|x").length = 2 ∧
    addGuestToContext [] [] stC1 = .error .valueError :=
  ⟨rfl, rfl, rfl, rfl⟩

/-- C1 (amended): with no guest in context, a malformed token degrades to the
anonymous (empty) identity without raising when its separator count is wrong,
when its (integer) id names no guest, or when the stored secret is empty or
`consteq` rejects the presented secret — but a token with exactly two parts
whose id part is not a valid integer literal (e.g. an empty id) raises
`ValueError` instead. -/
theorem resolveToken_malformed (st : RequestState) (t : String) :
    ((pySplit '|' t).length ≠ 2 →
      resolveToken t st = .ok (none, { st with ctxGuest := some none })) ∧
    ((pySplit '|' t).length = 2 → pyInt ((pySplit '|' t).headD "") = none →
      resolveToken t st = .error .valueError) ∧
    (∀ i, (pySplit '|' t).length = 2 → pyInt ((pySplit '|' t).headD "") = some i →
      findGuest st.db i = none →
      resolveToken t st = .ok (none,
        { st with ctxGuest := some none, lookups := st.lookups + 1 })) ∧
    (∀ i g, (pySplit '|' t).length = 2 → pyInt ((pySplit '|' t).headD "") = some i →
      findGuest st.db i = some g →
      (g.access_token = "" ∨
        (consteq g.access_token (((pySplit '|' t).drop 1).headD "")).1 = false) →
      resolveToken t st = .ok (none,
        { st with ctxGuest := some none, lookups := st.lookups + 1 })) := by
  refine ⟨?_, ?_, ?_, ?_⟩
  · intro h
    simp [resolveToken, h]
  · intro h2 hint
    obtain ⟨a, b, hp⟩ := List.length_eq_two.mp h2
    rw [hp] at hint
    simp only [List.headD_cons] at hint
    simp [resolveToken, hp, hint]
  · intro i h2 hint hfind
    obtain ⟨a, b, hp⟩ := List.length_eq_two.mp h2
    rw [hp] at hint
    simp only [List.headD_cons] at hint
    simp [resolveToken, hp, hint, hfind]
  · intro i g h2 hint hfind hbad
    obtain ⟨a, b, hp⟩ := List.length_eq_two.mp h2
    rw [hp] at hint hbad
    simp only [List.headD_cons] at hint
    simp only [List.drop_succ_cons, List.drop_zero, List.headD_cons] at hbad
    rcases hbad with hb | hb <;>
      simp [resolveToken, hp, hint, hfind, hb]

/-- Witness for C1 (amended): a token with no separator yields the anonymous
identity without raising. -/
theorem resolveToken_malformed_witness :
    (pySplit '|' "nosep").length ≠ 2 ∧
    resolveToken "nosep" stC1 = .ok (none, { stC1 with ctxGuest := some none }) :=
  ⟨by decide, (resolveToken_malformed stC1 "nosep").1 (by decide)⟩

/-! ## C2 -/

/-- A stored guest whose secret will not match the presented one. -/
def gB : Guest :=
  { id := 1, name := "Alice", access_token := "right", timezone := some "UTC",
    channel_ids := [] }

/-- Request state for the C2 counterexample: no guest in context yet, and the
cookie token `"1|wrong"` names stored guest 1 with the wrong secret. -/
def stC2 : RequestState :=
  { ctxGuest := none, cookieDgid := some "1|wrong", cookieTz := none,
    ctxGuestToken := none, tzNames := [], db := [gB], lookups := 0 }

/-- Counterexample to C2 as stated: after a failed resolution the context
carries the resolved, typed (empty) identity, yet it does not short-circuit —
two nested decorated calls on the same request perform two database lookups,
not at most one. -/
theorem runTwice_two_lookups :
    runTwice stC2 = .ok (none, { stC2 with ctxGuest := some none, lookups := 2 }) :=
  rfl

theorem resolveToken_ok_some (t : String) (st : RequestState) (gid : Nat)
    (st' : RequestState) (h : resolveToken t st = .ok (some gid, st')) :
    st'.ctxGuest = some (some gid) ∧ st'.lookups = st.lookups + 1 := by
  unfold resolveToken at h
  by_cases hl : (pySplit '|' t).length = 2
  · rw [if_pos hl] at h
    dsimp only at h
    cases hint : pyInt ((pySplit '|' t).headD "") with
    | none => rw [hint] at h; simp at h
    | some i =>
      rw [hint] at h
      dsimp only at h
      cases hfind : findGuest st.db i with
      | none => rw [hfind] at h; simp at h
      | some g =>
        rw [hfind] at h
        dsimp only at h
        by_cases hacc :
            (g.access_token = "" ||
              !(consteq g.access_token (((pySplit '|' t).drop 1).headD "")).1) = true
        · rw [if_pos hacc] at h
          simp at h
        · rw [if_neg hacc] at h
          by_cases htz : tzFalsy g.timezone = true
          · rw [if_pos htz] at h
            cases hgtz : getTimezoneFromRequest { st with lookups := st.lookups + 1 } with
            | some tz =>
              rw [hgtz] at h
              simp only [Except.ok.injEq, Prod.mk.injEq] at h
              obtain ⟨hg, hst⟩ := h
              subst hst
              obtain rfl := Option.some.inj hg
              exact ⟨rfl, rfl⟩
            | none =>
              rw [hgtz] at h
              simp only [Except.ok.injEq, Prod.mk.injEq] at h
              obtain ⟨hg, hst⟩ := h
              subst hst
              obtain rfl := Option.some.inj hg
              exact ⟨rfl, rfl⟩
          · rw [if_neg htz] at h
            simp only [Except.ok.injEq, Prod.mk.injEq] at h
            obtain ⟨hg, hst⟩ := h
            subst hst
            obtain rfl := Option.some.inj hg
            exact ⟨rfl, rfl⟩
  · rw [if_neg hl] at h
    simp at h

/-- C2 (amended): a non-empty typed guest identity in the ambient context
short-circuits resolution — it is returned unchanged with the state (and
lookup count) untouched — and any call that yields a concrete guest leaves
the context primed so that nested calls are free; hence a request whose token
resolves to a valid guest performs at most one lookup in total.  (An
anonymous, empty resolved identity does not short-circuit: nested calls after
a failed resolution re-resolve and repeat the lookup.) -/
theorem addGuestToContext_short_circuit (st : RequestState) (args : List String)
    (kw : Kwargs) :
    (∀ g, st.ctxGuest = some (some g) →
      addGuestToContext args kw st =
        .ok ((args, kw.filter (fun p => p.1 ≠ "guest_token"), some g), st)) ∧
    (∀ gid st' fa fk, addGuestToContext [] [] st = .ok ((fa, fk, some gid), st') →
      st'.lookups ≤ st.lookups + 1 ∧
      addGuestToContext [] [] st' = .ok (([], [], some gid), st')) := by
  constructor
  · intro g hg
    simp [addGuestToContext, getGuestFromContext, hg]
  · intro gid st' fa fk h
    unfold addGuestToContext at h
    rcases hc : getGuestFromContext st with _ | gg
    · rw [hc] at h
      dsimp only at h
      rcases hr : resolveToken (candidateToken ((List.lookup "guest_token" []).getD none) st) st
        with e | ⟨gv, st₂⟩
      · rw [hr] at h
        simp [Except.map] at h
      · rw [hr] at h
        simp only [Except.map, Except.ok.injEq, Prod.mk.injEq] at h
        obtain ⟨⟨hfa, hfk, hgv⟩, hst⟩ := h
        subst hst
        obtain ⟨hctx, hlk⟩ := resolveToken_ok_some _ _ _ _ (hgv ▸ hr)
        refine ⟨by omega, ?_⟩
        simp [addGuestToContext, getGuestFromContext, hctx]
    · rw [hc] at h
      dsimp only at h
      simp only [Except.ok.injEq, Prod.mk.injEq] at h
      obtain ⟨⟨hfa, hfk, hgv⟩, hst⟩ := h
      subst hst
      refine ⟨by omega, ?_⟩
      have hctx : st.ctxGuest = some (some gg) := by
        unfold getGuestFromContext at hc
        cases hcg : st.ctxGuest with
        | none => rw [hcg] at hc; cases hc
        | some v => rw [hcg] at hc; simp at hc; rw [hc]
      simp [addGuestToContext, getGuestFromContext, hctx, ← hgv]

/-- Witness for C2 (amended): with guest 5 typed in the context, the
decorator short-circuits and returns it with the state unchanged. -/
theorem addGuestToContext_short_circuit_witness :
    stSC.ctxGuest = some (some 5) ∧
    addGuestToContext [] [] stSC = .ok (([], [], some 5), stSC) :=
  ⟨rfl, (addGuestToContext_short_circuit stSC [] []).1 5 rfl⟩

end MailGuest
